import Mathlib

/-!
# Verification of the `rust_book_examples` repository

A shallow embedding, in Lean 4, of the behaviourally relevant parts of the
repository's seventeen example programs, together with theorems settling the
frozen claims about the natural-language specification.

Conventions used throughout:
* Rust `i32` values are embedded as `Int`; where overflow matters the
  two's-complement wrap at 32 bits is made explicit (`i32wrap`).
* Rust `u32` values are embedded as `Nat` with an explicit `< 2 ^ 32` bound
  in the parser that produces them.
* Code that can `panic!` is embedded with `Except String α`: `.error msg`
  is a panic carrying the panic message, `.ok v` a normal return.
* File-system operations are embedded by passing the results the operating
  system would return (`open`, `create`, `read`) as explicit oracle
  arguments, since the examples only thread those results through.
* Each example's externally visible behaviour is embedded as a trace of
  I/O events (`Eff`); print payloads are abstracted to the event itself,
  which is sufficient for the claims about input/output dependence,
  file-system effects and threading.
-/

namespace RustBookExamples

/-! ## I/O event traces

`Eff` is the alphabet of externally visible events an example can perform:
writing a line (or partial line) to stdout, reading a line from stdin,
opening/creating/reading/writing a file, sampling from the `rand` crate
(`randRange lo hi` for `gen_range(lo, hi)`, `randAlnum n` for sampling `n`
alphanumeric characters), and spawning a thread (never used by any example,
but part of the alphabet so that its absence is a statement about the
programs, not about the alphabet). -/

inductive Eff where
  | print : Eff
  | readLine : Eff
  | fsOpen (path : String) : Eff
  | fsCreate (path : String) : Eff
  | fsRead : Eff
  | fsWrite (path : String) : Eff
  | randRange (lo hi : Nat) : Eff
  | randAlnum (len : Nat) : Eff
  | spawnThread : Eff
  deriving Repr, DecidableEq

/-- The file-system events among `Eff`. -/
def Eff.isFileEff : Eff → Bool
  | .fsOpen _ => true
  | .fsCreate _ => true
  | .fsRead => true
  | .fsWrite _ => true
  | _ => false

/-! ## 02_guessing_game : `main`

The guessing game generates a secret with `gen_range(1, 101)` and then loops:
print a prompt, read a line from stdin, `trim().parse::<u32>()` it
(`continue` on a parse error), print the guess, compare it with the secret
(printing a verdict), and `break` exactly when the guess equals the secret.
On end-of-file `read_line` returns `Ok` leaving the buffer empty, so the
loop keeps spinning on the empty string.

`parseU32` embeds `str::trim` followed by `str::parse::<u32>`: whitespace
stripped from both ends (`trimChars`), then optional leading `+`, at least
one ASCII digit, nothing else, value below `2 ^ 32`. -/

def trimChars (cs : List Char) : List Char :=
  ((cs.dropWhile Char.isWhitespace).reverse.dropWhile Char.isWhitespace).reverse

def parseU32 (s : String) : Option Nat :=
  let cs := trimChars s.toList
  let cs := if cs.head? = some '+' then cs.tail else cs
  if cs.isEmpty then none
  else if cs.all (·.isDigit) then
    let n := cs.foldl (fun acc c => acc * 10 + (c.toNat - 48)) 0
    if n < 2 ^ 32 then some n else none
  else none

/-- One pass of the guessing game's `loop`, driven by the remaining stdin
lines (an exhausted stdin yields the empty line forever) and bounded by
`fuel` iterations.  Returns the event trace of those iterations together
with whether the `break` statement was reached. -/
def gameLoop : Nat → List String → Nat → List Eff × Bool
  | 0, _, _ => ([], false)
  | fuel + 1, inputs, secret =>
    -- println!("Please input your guess"); io::stdin().read_line(&mut guess):
    -- each iteration emits a prompt print and a stdin read, taking the next
    -- line (the empty line once stdin is exhausted).
    let rest := gameLoop fuel inputs.tail secret
    match parseU32 (inputs.headD "") with
    | none =>
      -- Err(_) => continue
      ([Eff.print, Eff.readLine] ++ rest.1, rest.2)
    | some g =>
      -- println!("You guessed {}", guess); match guess.cmp(&secret_number):
      -- one verdict print per arm; only `Ordering::Equal` breaks.
      if g = secret then ([Eff.print, Eff.readLine, Eff.print, Eff.print], true)
      else ([Eff.print, Eff.readLine, Eff.print, Eff.print] ++ rest.1, rest.2)

/-- The guessing game's `main`: banner print, secret generation with
`gen_range(1, 101)`, the loop, and — only if the loop ever breaks — the
final `println!("Congratulations!")`. -/
def gameTrace (fuel : Nat) (inputs : List String) (secret : Nat) : List Eff :=
  let (t, won) := gameLoop fuel inputs secret
  [Eff.print, Eff.randRange 1 101] ++ t ++ (if won then [Eff.print] else [])

/-- The guessing game's `main` returns (the loop reaches `break`) within
some finite number of iterations. -/
def gameTerminates (inputs : List String) (secret : Nat) : Prop :=
  ∃ fuel, (gameLoop fuel inputs secret).2 = true

/-! ## Per-example event traces

For every example other than the guessing game, `main` is a straight-line
script (all loops iterate over literal, statically bounded data, and the
only potentially panicking call on the executed path — `Guess::new(50)` in
`13_errors` — is in range).  Each trace below lists, in program order, the
events the example emits; `List.replicate k Eff.print` stands for a source
loop that runs `k` times printing once per iteration. -/

/-- 01_hello_cargo `main`: `println!("Hello, world!")`. -/
def trace01 : List Eff := [Eff.print]

/-- 03_variables `main`: prints `x` twice and `y` once. -/
def trace03 : List Eff := List.replicate 3 Eff.print

/-- 04_data_types `main`: ten `println!` calls (str, String, char, i32,
f64, bool, tuple, array, and the two closing lines). -/
def trace04 : List Eff := List.replicate 10 Eff.print

/-- 05_functions `main`: `another_function` prints twice, `statement_demo`
once, then the `z` and `w` prints. -/
def trace05 : List Eff := List.replicate 5 Eff.print

/-- 06_branches `vanilla_loop`: the `loop` breaks at `counter == 10`
without printing; one result print afterwards. -/
def trace06_vanilla_loop : List Eff := [Eff.print]

/-- 06_branches `vanilla_while`: `while number != 0` from 3 prints
`3! 2! 1!`, then `LIFTOFF!!!` and the after-the-loop print. -/
def trace06_vanilla_while : List Eff :=
  List.replicate 3 Eff.print ++ [Eff.print, Eff.print]

/-- 06_branches `vanilla_for`: `while index < 3` (3 prints), `for element
in a.iter()` (3), `for (i, item) in ...enumerate()` (3), the `print!`
banner, `for number in 1..5` (4 `print!`s), `println!("")` and the NB. -/
def trace06_vanilla_for : List Eff :=
  List.replicate 3 Eff.print ++ List.replicate 3 Eff.print
    ++ List.replicate 3 Eff.print ++ [Eff.print]
    ++ List.replicate 4 Eff.print ++ [Eff.print, Eff.print]

/-- 06_branches `main`: `gen_range(0, 10)`, the if/else-if/else print, the
`result` print, then the three demo functions. -/
def trace06 : List Eff :=
  [Eff.randRange 0 10, Eff.print, Eff.print]
    ++ trace06_vanilla_loop ++ trace06_vanilla_while ++ trace06_vanilla_for

/-- 07_ownership `main`: eight `println!` calls on the executed path. -/
def trace07 : List Eff := List.replicate 8 Eff.print

/-- 08_slices `main`: six `println!` calls. -/
def trace08 : List Eff := List.replicate 6 Eff.print

/-- 09_structs `main`: nine `println!` calls (users, user3 debug, black,
white, area, two `can_hold`s, `rgb_str`, square). -/
def trace09 : List Eff := List.replicate 9 Eff.print

/-- 10_enums `main`: four `call()`s, two `maybe`s, the four
`value_in_cents` prints (with the extra `Lucky penny!` and `State
quarter` prints inside), `is_california` twice, `only_california`
three times: 17 prints in total. -/
def trace10 : List Eff := List.replicate 17 Eff.print

/-- 11_modules `main`: ten module-demo prints, then `things::greet`
(samples a 7-char id, one print), `things::assortment` (three 8-char
ids), the assortment print, and three `new`/print pairs (Animal,
Mineral, Vegetable), each sampling an 8-char id before its print. -/
def trace11 : List Eff :=
  List.replicate 10 Eff.print
    ++ [Eff.randAlnum 7, Eff.print]
    ++ [Eff.randAlnum 8, Eff.randAlnum 8, Eff.randAlnum 8, Eff.print]
    ++ [Eff.randAlnum 8, Eff.print]
    ++ [Eff.randAlnum 8, Eff.print]
    ++ [Eff.randAlnum 8, Eff.print]

/-- 12_collections `vectors::demo_vectors`: banner prints (2), `v1`, `v2`,
two equality prints, `val1`, the `None` match arm, the `print!` header,
six loop `print!`s over `v3 = [1, 3, 5, 7, 9, 42]`, `println!("")`,
the validity print and the two closing prints. -/
def trace12_vectors : List Eff :=
  List.replicate 8 Eff.print ++ [Eff.print]
    ++ List.replicate 6 Eff.print ++ List.replicate 4 Eff.print

/-- 12_collections `strings::demo_strings`: five prints, then
`rand_str(11)` samples 11 alphanumeric characters, then ten prints,
the six `print!`s of the `for c in kanji.chars()` loop over the six
chars of `"नमस्ते"`, and eight closing prints. -/
def trace12_strings : List Eff :=
  List.replicate 5 Eff.print ++ [Eff.randAlnum 11]
    ++ List.replicate 10 Eff.print ++ List.replicate 6 Eff.print
    ++ List.replicate 8 Eff.print

/-- 12_collections `hashmaps::demo_hashmaps`: banner prints (2),
`scores1`, the keys/values header, the two-entry iteration, `scores2`,
the `Some` match arm, `scores2` again, `colors` twice, the word map and
the two closing prints. -/
def trace12_hashmaps : List Eff :=
  List.replicate 4 Eff.print ++ List.replicate 2 Eff.print
    ++ List.replicate 8 Eff.print

/-- 12_collections `main`: the three demos in order. -/
def trace12 : List Eff := trace12_vectors ++ trace12_strings ++ trace12_hashmaps

/-- 13_errors `main`: every demo call (including every file operation) is
commented out; the executed path is eight banner prints, `Guess::new(50)`
(in range, hence no panic), the `g1.value()` print and the closing
print. -/
def trace13 : List Eff := List.replicate 10 Eff.print

/-- 14_generics `main`: the four `largest` prints (on non-empty literal
vectors), the two `Point` prints and the `Dot` mixup print. -/
def trace14 : List Eff := List.replicate 7 Eff.print

/-- 15_traits `foo::main`: `greet`, four summarize/more prints, the
two-variant banner, `notify_a`, `notify_b`, the largest print and the
list-state print, and the two `cmp_display` prints: 12 prints. -/
def trace15 : List Eff := List.replicate 12 Eff.print

/-- 16_lifetimes `main`: `simple_scope` (2 prints), `explicit_lifetime`
(9 prints on the executed path), `struct_lifetime` (1 print), and the
final static-lifetime print. -/
def trace16 : List Eff := List.replicate 13 Eff.print

/-- 17_testing `main`: `mylib::echo("Hello Library")`. -/
def trace17 : List Eff := [Eff.print]

/-- The seventeen example projects of the repository. -/
inductive ExampleId where
  | ex01 | ex02 | ex03 | ex04 | ex05 | ex06 | ex07 | ex08 | ex09
  | ex10 | ex11 | ex12 | ex13 | ex14 | ex15 | ex16 | ex17
  deriving Repr, DecidableEq

/-- The event trace of one run of an example's entry point.  `stdin` is
the list of lines available on standard input, `secret` the value the
guessing game's `gen_range(1, 101)` call returns, and `fuel` bounds the
guessing game's loop (all other examples are straight-line and ignore all
three). -/
def runExample : ExampleId → Nat → List String → Nat → List Eff
  | .ex01, _, _, _ => trace01
  | .ex02, fuel, stdin, secret => gameTrace fuel stdin secret
  | .ex03, _, _, _ => trace03
  | .ex04, _, _, _ => trace04
  | .ex05, _, _, _ => trace05
  | .ex06, _, _, _ => trace06
  | .ex07, _, _, _ => trace07
  | .ex08, _, _, _ => trace08
  | .ex09, _, _, _ => trace09
  | .ex10, _, _, _ => trace10
  | .ex11, _, _, _ => trace11
  | .ex12, _, _, _ => trace12
  | .ex13, _, _, _ => trace13
  | .ex14, _, _, _ => trace14
  | .ex15, _, _, _ => trace15
  | .ex16, _, _, _ => trace16
  | .ex17, _, _, _ => trace17

/-! ## 13_errors : error handling demos

The functions below only thread operating-system results through `match`
(or `?`), so they are embedded relative to oracles: `openRes` is what
`File::open` returns, `createRes` what `File::create` returns, and
`readRes f` the result of `f.read_to_string(&mut s)` on the obtained
handle `f` (`.ok s` meaning the read succeeded filling `s` with the file's
full contents).  `E` is the error type (`io::Error`), `H` the handle type
(`std::fs::File`). -/

/-- `read_username_verbose`: `match` on `File::open("users.txt")` with an
early `return Err(e)`, then `match` on `read_to_string`. -/
def read_username_verbose {E H : Type} (openRes : Except E H)
    (readRes : H → Except E String) : Except E String :=
  match openRes with
  | .ok file =>
    match readRes file with
    | .ok s => .ok s
    | .error e => .error e
  | .error e => .error e

/-- `read_username_terse`: the same logic via the `?` operator, which in
the `Except` monad is exactly monadic bind. -/
def read_username_terse {E H : Type} (openRes : Except E H)
    (readRes : H → Except E String) : Except E String := do
  let f ← openRes
  let s ← readRes f
  pure s

/-- The error kinds the `demo_result_smarter` match tree distinguishes:
`ErrorKind::NotFound` versus everything else (`other_error`). -/
inductive IOErrorKind where
  | notFound
  | otherKind
  deriving Repr, DecidableEq

/-- A model of `std::io::Error`: its kind plus its debug rendering. -/
structure IOError where
  kind : IOErrorKind
  msg : String

/-- `demo_result_smarter`: open `"hello.txt"`; on `Err(e)` with
`e.kind() == ErrorKind::NotFound` create `"hello.txt"` (panicking if the
creation fails), on any other kind panic; finally `read_to_string` the
obtained handle (panicking via `unwrap` on a read error) and print the
contents.  The first component is the outcome (`.error` = panic message,
`.ok` = the printed contents); the second is the list of file-system
operations performed, in order. -/
def demo_result_smarter {H : Type} (openRes : Except IOError H)
    (createRes : Except IOError H) (readRes : H → Except IOError String) :
    Except String String × List Eff :=
  match openRes with
  | .ok ff =>
    match readRes ff with
    | .ok contents => (.ok contents, [Eff.fsOpen "hello.txt", Eff.fsRead])
    | .error _ => (.error "called `Result::unwrap()` on an `Err` value",
        [Eff.fsOpen "hello.txt", Eff.fsRead])
  | .error error =>
    match error.kind with
    | .notFound =>
      match createRes with
      | .ok fc =>
        match readRes fc with
        | .ok contents => (.ok contents,
            [Eff.fsOpen "hello.txt", Eff.fsCreate "hello.txt", Eff.fsRead])
        | .error _ => (.error "called `Result::unwrap()` on an `Err` value",
            [Eff.fsOpen "hello.txt", Eff.fsCreate "hello.txt", Eff.fsRead])
      | .error e =>
        (.error ("Tried to create file but there was a problem: " ++ e.msg),
          [Eff.fsOpen "hello.txt", Eff.fsCreate "hello.txt"])
    | .otherKind =>
      (.error ("There was a problem opening the file: " ++ error.msg),
        [Eff.fsOpen "hello.txt"])

/-! ## The two `Guess` types

`13_errors` defines a `Guess` with a private `value: i32` field, a
panicking constructor accepting `1..=100`, and a read-only getter.
`17_testing` defines a `Guess` whose constructor distinguishes the
too-small and too-large panic messages.  Panics are embedded as
`Except String`, carrying the formatted panic message. -/

/-- The `Guess` struct of `13_errors` (field `value` is private in the
source; here the `new`/`value` interface below is what the claims are
about). -/
structure Guess13 where
  value : Int
  deriving Repr, DecidableEq

/-- `Guess::new` of `13_errors`: panic unless `1 <= value <= 100`. -/
def Guess13.new (value : Int) : Except String Guess13 :=
  if value < 1 ∨ value > 100 then
    .error ("Guess value must be between 1 and 100, got " ++ toString value ++ ".")
  else
    .ok { value := value }

/-- The getter `Guess::value(&self)` of `13_errors`: returns the private
field, taking `&self` (no mutation is possible). -/
def Guess13.get (g : Guess13) : Int := g.value

/-- The `Guess` struct of `17_testing`. -/
structure Guess17 where
  value : Int
  deriving Repr, DecidableEq

/-- `Guess::new` of `17_testing`: separate panic messages for values
below 1 and above 100. -/
def Guess17.new (value : Int) : Except String Guess17 :=
  if value < 1 then
    .error ("Guess value must be greater than or equal to 1, got "
      ++ toString value ++ ".")
  else if value > 100 then
    .error ("Guess value must be less than or equal to 100, got "
      ++ toString value ++ ".")
  else
    .ok { value := value }

/-! ## 17_testing : `add_two` / `internal_adder`

`i32` arithmetic is embedded on `Int` with an explicit two's-complement
wrap at 32 bits (the claim's reading of `i32` addition at the bounds). -/

/-- The `i32` range predicate. -/
def isI32 (n : Int) : Prop := -(2 ^ 31) ≤ n ∧ n < 2 ^ 31

/-- Two's-complement wrap of an integer into the `i32` range. -/
def i32wrap (n : Int) : Int := (n + 2 ^ 31) % 2 ^ 32 - 2 ^ 31

/-- `internal_adder(a, b) = a + b` in `i32` arithmetic. -/
def internal_adder (a b : Int) : Int := i32wrap (a + b)

/-- `add_two(a) = internal_adder(a, 2)`. -/
def add_two (a : Int) : Int := internal_adder a 2

/-! ## The `largest` functions

`14_generics` defines `largest_i32`, `largest_char` and a generic
`largest` returning `&T`; `15_traits` defines a generic `largest`
returning an owned `T`.  All four share the same body: read `list[0]`
(which panics — embedded as `none` — on an empty slice), then scan the
whole slice replacing the candidate whenever `item > largest`.  The
generic functions are embedded over an arbitrary comparison
`gt : T → T → Bool` standing for `PartialOrd::gt`; the `i32`/`char`
instances use the order on `Int`/`Char`. -/

/-- `largest_i32` of 14_generics. -/
def largest_i32 (list : List Int) : Option Int :=
  match list.head? with
  | none => none
  | some first =>
    some (list.foldl (fun largest item => if item > largest then item else largest) first)

/-- `largest_char` of 14_generics. -/
def largest_char (list : List Char) : Option Char :=
  match list.head? with
  | none => none
  | some first =>
    some (list.foldl (fun largest item => if item > largest then item else largest) first)

/-- The generic `largest` of 14_generics (returns `&T`; dereferencing the
returned reference yields the value computed here). -/
def largest14 {T : Type} (gt : T → T → Bool) (list : List T) : Option T :=
  match list.head? with
  | none => none
  | some first =>
    some (list.foldl (fun largest item => if gt item largest then item else largest) first)

/-- The generic `largest` of 15_traits (`T: PartialOrd + Copy`, returns an
owned `T`). -/
def largest15 {T : Type} (gt : T → T → Bool) (list : List T) : Option T :=
  match list.head? with
  | none => none
  | some first =>
    some (list.foldl (fun largest item => if gt item largest then item else largest) first)

/-- `PartialOrd::gt` at `i32`. -/
def gtInt (a b : Int) : Bool := decide (a > b)

/-! ## Helper lemmas -/

/-- `"".trim().parse::<u32>()` fails: the empty line obtained at
end-of-file never parses. -/
theorem parseU32_empty : parseU32 "" = none := by decide

/-- If the guessing game's loop ever breaks, some stdin line parses to
the secret. -/
theorem gameLoop_wins (secret : Nat) :
    ∀ (fuel : Nat) (inputs : List String),
      (gameLoop fuel inputs secret).2 = true →
      ∃ l ∈ inputs, parseU32 l = some secret := by
  intro fuel
  induction fuel with
  | zero => intro inputs h; simp [gameLoop] at h
  | succ n ih =>
    intro inputs h
    cases inputs with
    | nil =>
      simp only [gameLoop, List.headD_nil, List.tail_nil, parseU32_empty] at h
      obtain ⟨l, hl, -⟩ := ih [] h
      exact absurd hl (List.not_mem_nil l)
    | cons a as =>
      simp only [gameLoop, List.headD_cons, List.tail_cons] at h
      cases hp : parseU32 a with
      | none =>
        rw [hp] at h
        simp only at h
        obtain ⟨l, hl, hpl⟩ := ih as h
        exact ⟨l, List.mem_cons_of_mem a hl, hpl⟩
      | some g =>
        rw [hp] at h
        simp only at h
        by_cases hg : g = secret
        · exact ⟨a, List.mem_cons_self a as, by rw [hp, hg]⟩
        · rw [if_neg hg] at h
          simp only at h
          obtain ⟨l, hl, hpl⟩ := ih as h
          exact ⟨l, List.mem_cons_of_mem a hl, hpl⟩

/-- If some stdin line parses to the secret, the guessing game's loop
breaks within finitely many iterations. -/
theorem gameLoop_of_parse (secret : Nat) :
    ∀ (inputs : List String), (∃ l ∈ inputs, parseU32 l = some secret) →
      ∃ fuel, (gameLoop fuel inputs secret).2 = true := by
  intro inputs
  induction inputs with
  | nil =>
    rintro ⟨l, hl, -⟩
    exact absurd hl (List.not_mem_nil l)
  | cons a as ih =>
    rintro ⟨l, hl, hpl⟩
    rcases List.mem_cons.1 hl with rfl | hmem
    · exact ⟨1, by simp [gameLoop, hpl]⟩
    · obtain ⟨f, hf⟩ := ih ⟨l, hmem, hpl⟩
      refine ⟨f + 1, ?_⟩
      simp only [gameLoop, List.headD_cons, List.tail_cons]
      cases hp : parseU32 a with
      | none => simpa using hf
      | some g =>
        by_cases hg : g = secret
        · simp [hg]
        · simp [hg, hf]

/-- Every event the guessing game's loop emits is a stdout print or a
stdin read. -/
theorem gameLoop_events (secret : Nat) :
    ∀ (fuel : Nat) (inputs : List String) (e : Eff),
      e ∈ (gameLoop fuel inputs secret).1 →
      e = Eff.print ∨ e = Eff.readLine := by
  intro fuel
  induction fuel with
  | zero => intro inputs e he; simp [gameLoop] at he
  | succ n ih =>
    intro inputs e he
    simp only [gameLoop] at he
    cases hp : parseU32 (inputs.headD "") with
    | none =>
      rw [hp] at he
      simp only [List.mem_append, List.mem_cons, List.not_mem_nil, or_false] at he
      rcases he with (h | h) | h
      · exact Or.inl h
      · exact Or.inr h
      · exact ih inputs.tail e h
    | some g =>
      rw [hp] at he
      simp only at he
      by_cases hg : g = secret
      · rw [if_pos hg] at he
        simp only [List.mem_cons, List.not_mem_nil, or_false] at he
        rcases he with h | h | h | h
        all_goals simp [h]
      · rw [if_neg hg] at he
        simp only [List.mem_append, List.mem_cons, List.not_mem_nil, or_false] at he
        rcases he with (h | h | h | h) | h
        · exact Or.inl h
        · exact Or.inr h
        · exact Or.inl h
        · exact Or.inl h
        · exact ih inputs.tail e h

/-- Every event the guessing game's `main` emits is a print, a stdin
read, or the one `gen_range(1, 101)` sample. -/
theorem gameTrace_events (fuel : Nat) (inputs : List String) (secret : Nat)
    (e : Eff) (he : e ∈ gameTrace fuel inputs secret) :
    e = Eff.print ∨ e = Eff.readLine ∨ e = Eff.randRange 1 101 := by
  simp only [gameTrace, List.mem_append, List.mem_cons, List.not_mem_nil,
    or_false] at he
  rcases he with ((h | h) | h) | h
  · exact Or.inl h
  · exact Or.inr (Or.inr h)
  · rcases gameLoop_events secret fuel inputs e h with h' | h'
    · exact Or.inl h'
    · exact Or.inr (Or.inl h')
  · split at h
    · simp only [List.mem_cons, List.not_mem_nil, or_false] at h
      exact Or.inl h
    · exact absurd h (List.not_mem_nil e)

/-! ## Claim C1 : termination of the entry points -/

/-- C1 (counterexample): the guessing game's `main` does not terminate for
every stdin.  With secret `42` and stdin consisting of the single line
`"7"`, the read–parse–compare loop never reaches `break`: the `"7"` guess
compares `Less`, and every later read returns the empty line, whose parse
error makes the loop `continue` forever. -/
theorem c1_counterexample : ¬ gameTerminates ["7"] 42 := by
  rintro ⟨fuel, hwin⟩
  obtain ⟨l, hl, hpl⟩ := gameLoop_wins 42 fuel ["7"] hwin
  simp only [List.mem_singleton] at hl
  subst hl
  rw [show parseU32 "7" = some 7 from by decide] at hpl
  exact absurd (Option.some.inj hpl) (by decide)

/-- C1 (amended): every example's entry point other than the guessing
game's emits a fixed finite event trace regardless of stdin (it runs
top-to-bottom and terminates); the guessing game's read–parse–compare
loop terminates if and only if some line of stdin trims-and-parses to the
secret number. -/
theorem c1_termination (inputs : List String) (secret : Nat)
    (ex : ExampleId) (hex : ex ≠ ExampleId.ex02) :
    (gameTerminates inputs secret ↔ ∃ l ∈ inputs, parseU32 l = some secret)
    ∧ ∀ fuel stdin s, runExample ex fuel stdin s = runExample ex 0 [] 0 := by
  constructor
  · constructor
    · rintro ⟨fuel, hwin⟩
      exact gameLoop_wins secret fuel inputs hwin
    · exact gameLoop_of_parse secret inputs
  · intro fuel stdin s
    cases ex
    case ex02 => exact absurd rfl hex
    all_goals rfl

/-- C1 (witness): the amended statement at a concrete instance — with
stdin `["guess", "42"]` and secret `42` the game terminates, and example
01's trace is stdin-independent. -/
theorem c1_termination_witness :
    (gameTerminates ["guess", "42"] 42 ↔
      ∃ l ∈ ["guess", "42"], parseU32 l = some 42)
    ∧ ∀ fuel stdin s,
        runExample ExampleId.ex01 fuel stdin s = runExample ExampleId.ex01 0 [] 0 :=
  c1_termination ["guess", "42"] 42 ExampleId.ex01 (by decide)

/-! ## Claim C5 : stdin dependence -/

/-- C5: exactly one example — the guessing game — reads stdin: every
other example's event trace is independent of the stdin contents and
contains no stdin read at all, while the guessing game's trace does read
stdin, and two runs with different stdin contents can produce different
output. -/
theorem c5_stdin_independence :
    (∀ ex, ex ≠ ExampleId.ex02 →
      ∀ fuel secret s1 s2,
        runExample ex fuel s1 secret = runExample ex fuel s2 secret
          ∧ Eff.readLine ∉ runExample ex fuel s1 secret)
    ∧ (∃ fuel secret s1 s2,
        runExample ExampleId.ex02 fuel s1 secret ≠ runExample ExampleId.ex02 fuel s2 secret)
    ∧ ∃ fuel secret stdin, Eff.readLine ∈ runExample ExampleId.ex02 fuel stdin secret := by
  refine ⟨?_, ⟨1, 42, ["42"], ["1"], by decide⟩, ⟨1, 42, [], by decide⟩⟩
  intro ex hex fuel secret s1 s2
  cases ex
  case ex02 => exact absurd rfl hex
  all_goals
    refine ⟨rfl, ?_⟩
    simp only [runExample]
    decide

/-- C5 (witness): the first conjunct applied to example 01 at concrete
inputs. -/
theorem c5_stdin_independence_witness :
    runExample ExampleId.ex01 0 ["a"] 0 = runExample ExampleId.ex01 0 ["b"] 0
      ∧ Eff.readLine ∉ runExample ExampleId.ex01 0 ["a"] 0 :=
  c5_stdin_independence.1 ExampleId.ex01 (by decide) 0 0 ["a"] ["b"]

/-! ## Claim C10 : no concurrency -/

/-- C10: no example ever spawns a thread: the `spawnThread` event occurs
in no example's trace, for any stdin, any secret and any loop bound; all
execution is the single synchronous event sequence modelled by
`runExample`. -/
theorem c10_no_threads (ex : ExampleId) (fuel : Nat) (stdin : List String)
    (secret : Nat) : Eff.spawnThread ∉ runExample ex fuel stdin secret := by
  cases ex
  case ex02 =>
    intro h
    rcases gameTrace_events fuel stdin secret Eff.spawnThread h with h' | h' | h' <;>
      exact absurd h' (by decide)
  all_goals
    simp only [runExample]
    decide

/-! ## Claim C6 : file-system effects -/

/-- No example's entry point performs a file-system operation: `13_errors`
defines the file-handling demos, but its `main` as committed has every
call to them commented out. -/
theorem runExample_no_fileEff (ex : ExampleId) (fuel : Nat)
    (stdin : List String) (secret : Nat) :
    ∀ e ∈ runExample ex fuel stdin secret, e.isFileEff = false := by
  cases ex
  case ex02 =>
    intro e he
    rcases gameTrace_events fuel stdin secret e he with h | h | h <;> subst h <;> rfl
  all_goals
    simp only [runExample]
    decide

/-- C6 (counterexample): it is not the case that exactly one example
creates or reads a local file — no example does: running any example,
with any stdin, performs no file-system operation at all, because the
calls to the file-handling demos in `13_errors::main` are commented
out. -/
theorem c6_counterexample :
    ¬ ∃ ex : ExampleId, ∃ fuel stdin secret,
        ∃ e ∈ runExample ex fuel stdin secret, e.isFileEff = true := by
  rintro ⟨ex, fuel, stdin, secret, e, he, hf⟩
  rw [runExample_no_fileEff ex fuel stdin secret e he] at hf
  exact Bool.false_ne_true hf

/-- C6 (amended): every example's execution leaves the file system
unchanged (its trace contains no file-system operation); within the
error-handling example, the (uncalled) `demo_result_smarter` opens
`"hello.txt"` first, creates `"hello.txt"` exactly when the open failed
with `ErrorKind::NotFound`, and reads the resulting file's contents,
printing them on success. -/
theorem c6_file_effects :
    (∀ ex fuel stdin secret, ∀ e ∈ runExample ex fuel stdin secret,
      e.isFileEff = false)
    ∧ ∀ (H : Type) (openRes : Except IOError H) (createRes : Except IOError H)
        (readRes : H → Except IOError String),
        (demo_result_smarter openRes createRes readRes).2.head?
            = some (Eff.fsOpen "hello.txt")
        ∧ (Eff.fsCreate "hello.txt" ∈ (demo_result_smarter openRes createRes readRes).2
            ↔ ∃ e, openRes = .error e ∧ e.kind = IOErrorKind.notFound)
        ∧ (∀ f s, openRes = .ok f → readRes f = .ok s →
            (demo_result_smarter openRes createRes readRes).1 = .ok s)
        ∧ (∀ e f s, openRes = .error e → e.kind = IOErrorKind.notFound →
            createRes = .ok f → readRes f = .ok s →
            (demo_result_smarter openRes createRes readRes).1 = .ok s
              ∧ Eff.fsRead ∈ (demo_result_smarter openRes createRes readRes).2) := by
  refine ⟨runExample_no_fileEff, ?_⟩
  intro H openRes createRes readRes
  refine ⟨?_, ?_, ?_, ?_⟩
  · cases openRes with
    | ok f => cases hr : readRes f <;> simp [demo_result_smarter, hr]
    | error e =>
      obtain ⟨k, m⟩ := e
      cases k with
      | notFound =>
        cases createRes with
        | ok fc => cases hr : readRes fc <;> simp [demo_result_smarter, hr]
        | error e2 => simp [demo_result_smarter]
      | otherKind => simp [demo_result_smarter]
  · cases openRes with
    | ok f =>
      cases hr : readRes f <;> simp [demo_result_smarter, hr]
    | error e =>
      obtain ⟨k, m⟩ := e
      cases k with
      | notFound =>
        cases createRes with
        | ok fc =>
          cases hr : readRes fc <;> simp [demo_result_smarter, hr]
        | error e2 =>
          simp only [demo_result_smarter]
          constructor
          · intro _; exact ⟨⟨IOErrorKind.notFound, m⟩, rfl, rfl⟩
          · intro _; decide
      | otherKind =>
        simp only [demo_result_smarter]
        constructor
        · intro h; exact absurd h (by decide)
        · rintro ⟨e', he', hk⟩
          cases he'
          simp at hk
  · rintro f s rfl hr
    simp [demo_result_smarter, hr]
  · rintro e f s rfl hk rfl hr
    obtain ⟨k, m⟩ := e
    cases hk
    simp [demo_result_smarter, hr]

/-- C6 (witness): the amended statement at concrete oracles — a
not-found open followed by a successful creation and read yields the
file's contents, with the read performed. -/
theorem c6_file_effects_witness :
    (demo_result_smarter (Except.error ⟨IOErrorKind.notFound, "nf"⟩)
        (Except.ok ()) (fun _ : Unit => Except.ok "eggs")).1 = Except.ok "eggs"
      ∧ Eff.fsRead ∈ (demo_result_smarter
          (Except.error ⟨IOErrorKind.notFound, "nf"⟩)
          (Except.ok ()) (fun _ : Unit => Except.ok "eggs")).2 :=
  (c6_file_effects.2 Unit (Except.error ⟨IOErrorKind.notFound, "nf"⟩)
      (Except.ok ()) (fun _ => Except.ok "eggs")).2.2.2
    ⟨IOErrorKind.notFound, "nf"⟩ () "eggs" rfl rfl rfl rfl

/-! ## Claim C3 : the two `read_username` functions -/

/-- C3: `read_username_verbose` and `read_username_terse` are
behaviourally equivalent: whatever `File::open("users.txt")` and the
subsequent `read_to_string` return, both compute the same result — `Ok`
of the file's full contents when both operations succeed, and the error
of the first failing operation otherwise. -/
theorem c3_read_username_equiv (E H : Type) (openRes : Except E H)
    (readRes : H → Except E String) :
    read_username_verbose openRes readRes = read_username_terse openRes readRes
    ∧ (∀ e, openRes = .error e →
        read_username_verbose openRes readRes = .error e)
    ∧ (∀ f s, openRes = .ok f → readRes f = .ok s →
        read_username_verbose openRes readRes = .ok s)
    ∧ (∀ f e, openRes = .ok f → readRes f = .error e →
        read_username_verbose openRes readRes = .error e) := by
  refine ⟨?_, ?_, ?_, ?_⟩
  · cases openRes with
    | error e => rfl
    | ok f =>
      cases hr : readRes f with
      | ok s =>
        have h1 : read_username_verbose (Except.ok f) readRes = .ok s := by
          simp [read_username_verbose, hr]
        have h2 : read_username_terse (Except.ok f) readRes = .ok s := by
          show (readRes f >>= fun s => pure s) = Except.ok s
          rw [hr]
          rfl
        rw [h1, h2]
      | error e =>
        have h1 : read_username_verbose (Except.ok f) readRes = .error e := by
          simp [read_username_verbose, hr]
        have h2 : read_username_terse (Except.ok f) readRes = .error e := by
          show (readRes f >>= fun s => pure s) = Except.error e
          rw [hr]
          rfl
        rw [h1, h2]
  · rintro e rfl
    rfl
  · rintro f s rfl hr
    simp [read_username_verbose, hr]
  · rintro f e rfl hr
    simp [read_username_verbose, hr]

/-- C3 (witness): the theorem at concrete oracles, on both the all-ok
path and the failing-open path. -/
theorem c3_read_username_equiv_witness :
    @read_username_verbose Nat Nat (Except.ok 0) (fun _ => Except.ok "alice")
        = Except.ok "alice"
      ∧ @read_username_verbose Nat Nat (Except.error 7)
          (fun _ => Except.ok "alice") = Except.error 7 :=
  ⟨(c3_read_username_equiv Nat Nat (Except.ok 0)
        (fun _ => Except.ok "alice")).2.2.1 0 "alice" rfl rfl,
    (c3_read_username_equiv Nat Nat (Except.error 7)
        (fun _ => Except.ok "alice")).2.1 7 rfl⟩

/-! ## Claim C2 : `Guess::new` of 17_testing -/

/-- C2: for `1 <= value <= 100`, `Guess::new(value)` returns a `Guess`
carrying exactly that value; for `value > 100` it panics with a message
containing `"value must be less than or equal to 100"`; for `value < 1`
it panics with a message containing `"value must be greater than or
equal to 1"`; and it panics in no other case. -/
theorem c2_guess17_new (v : Int) :
    (1 ≤ v → v ≤ 100 → Guess17.new v = .ok { value := v })
    ∧ (100 < v → ∃ m, Guess17.new v = .error m
        ∧ List.IsInfix "value must be less than or equal to 100".toList m.toList)
    ∧ (v < 1 → ∃ m, Guess17.new v = .error m
        ∧ List.IsInfix "value must be greater than or equal to 1".toList m.toList)
    ∧ (∀ m, Guess17.new v = .error m → v < 1 ∨ 100 < v) := by
  refine ⟨?_, ?_, ?_, ?_⟩
  · intro h1 h2
    rw [Guess17.new, if_neg (by omega), if_neg (by omega)]
  · intro h
    refine ⟨"Guess value must be less than or equal to 100, got "
      ++ toString v ++ ".", ?_, ?_⟩
    · rw [Guess17.new, if_neg (by omega), if_pos h]
    · refine ⟨"Guess ".toList, (", got " ++ toString v ++ ".").toList, ?_⟩
      simp only [String.toList, String.data_append, ← List.append_assoc]
      congr 2
  · intro h
    refine ⟨"Guess value must be greater than or equal to 1, got "
      ++ toString v ++ ".", ?_, ?_⟩
    · rw [Guess17.new, if_pos h]
    · refine ⟨"Guess ".toList, (", got " ++ toString v ++ ".").toList, ?_⟩
      simp only [String.toList, String.data_append, ← List.append_assoc]
      congr 2
  · intro m hm
    by_contra hc
    push_neg at hc
    rw [Guess17.new, if_neg (by omega), if_neg (by omega)] at hm
    exact absurd hm (by simp)

/-- C2 (witness): `Guess::new` at 50 (in range), 200 (too large) and −1
(too small). -/
theorem c2_guess17_new_witness :
    Guess17.new 50 = .ok { value := 50 }
      ∧ (∃ m, Guess17.new 200 = .error m
          ∧ List.IsInfix "value must be less than or equal to 100".toList m.toList)
      ∧ ∃ m, Guess17.new (-1) = .error m
          ∧ List.IsInfix "value must be greater than or equal to 1".toList m.toList :=
  ⟨(c2_guess17_new 50).1 (by decide) (by decide),
    (c2_guess17_new 200).2.1 (by decide),
    (c2_guess17_new (-1)).2.2.1 (by decide)⟩

/-! ## Claim C8 : the `Guess` invariant of 13_errors -/

/-- C8: `value` is private and `Guess::new` is the only constructor, so
every `Guess` obtained through the public interface satisfies
`1 <= value <= 100`; the getter returns exactly the constructed value
(and, being a `&self` method returning a copy of an `i32` field, modifies
nothing). -/
theorem c8_guess13_invariant (v : Int) (g : Guess13)
    (h : Guess13.new v = .ok g) :
    1 ≤ g.get ∧ g.get ≤ 100 ∧ g.get = v := by
  rw [Guess13.new] at h
  split at h
  · exact absurd h (by simp)
  · next hc =>
    push_neg at hc
    obtain rfl : Guess13.mk v = g := by injection h
    exact ⟨hc.1, hc.2, rfl⟩

/-- C8 (witness): the invariant for the `Guess::new(50)` call that
`13_errors::main` actually makes. -/
theorem c8_guess13_invariant_witness :
    1 ≤ (Guess13.mk 50).get ∧ (Guess13.mk 50).get ≤ 100
      ∧ (Guess13.mk 50).get = 50 :=
  c8_guess13_invariant 50 (Guess13.mk 50) rfl

/-! ## Claim C7 : `add_two` / `internal_adder` -/

/-- C7: `add_two(a)` equals `internal_adder(a, 2)` for every `i32` value
`a`, which equals `a + 2` in `i32` arithmetic — the exact sum whenever
`a + 2` stays in range and the two's-complement wrap at the upper bound —
and the tested equalities `internal_adder(2, 2) = 4` and `add_two(2) = 4`
hold. -/
theorem c7_add_two :
    (∀ a : Int, add_two a = internal_adder a 2)
    ∧ (∀ a : Int, isI32 a → a + 2 < 2 ^ 31 → add_two a = a + 2)
    ∧ add_two (2 ^ 31 - 1) = -(2 ^ 31) + 1
    ∧ internal_adder 2 2 = 4 ∧ add_two 2 = 4 := by
  refine ⟨fun a => rfl, ?_, by decide, by decide, by decide⟩
  intro a hi h2
  obtain ⟨hlo, hhi⟩ := hi
  show i32wrap (a + 2) = a + 2
  rw [i32wrap, Int.emod_eq_of_lt (by omega) (by omega)]
  ring

/-- C7 (witness): the in-range statement at `a = 5`. -/
theorem c7_add_two_witness : add_two 5 = 5 + 2 :=
  c7_add_two.2.1 5 ⟨by decide, by decide⟩ (by decide)

/-! ## Claims C4 and C9 : the `largest` functions -/

/-- A left fold with a step function that always keeps one of its two
arguments and is an upper bound for both computes a maximum: the result
is the seed or a list element, dominates the seed, and dominates every
list element. -/
theorem foldl_largest_spec {f : Int → Int → Int}
    (hf : ∀ a b, (f a b = a ∨ f a b = b) ∧ a ≤ f a b ∧ b ≤ f a b) :
    ∀ (l : List Int) (a : Int),
      (l.foldl f a = a ∨ l.foldl f a ∈ l)
      ∧ a ≤ l.foldl f a ∧ ∀ x ∈ l, x ≤ l.foldl f a := by
  intro l
  induction l with
  | nil => intro a; simp
  | cons b t ih =>
    intro a
    simp only [List.foldl_cons]
    obtain ⟨hmem, hle, hall⟩ := ih (f a b)
    refine ⟨?_, ?_, ?_⟩
    · rcases hmem with h | h
      · rcases (hf a b).1 with h' | h'
        · exact Or.inl (h.trans h')
        · exact Or.inr (by rw [h, h']; exact List.mem_cons_self b t)
      · exact Or.inr (List.mem_cons_of_mem b h)
    · exact le_trans (hf a b).2.1 hle
    · intro x hx
      rcases List.mem_cons.1 hx with h | hx'
      · rw [h]
        exact le_trans (hf a b).2.2 hle
      · exact hall x hx'

/-- The loop body `if item > largest { largest = item }` keeps one of its
two arguments and is an upper bound for both. -/
theorem largestStep_spec (a b : Int) :
    ((if b > a then b else a) = a ∨ (if b > a then b else a) = b)
    ∧ a ≤ (if b > a then b else a) ∧ b ≤ (if b > a then b else a) := by
  by_cases h : b > a <;> simp [h] <;> omega

/-- The comparison `gtInt` is `>` on `Int`, so the two fold bodies
coincide. -/
theorem gtInt_step_eq :
    (fun largest item : Int => if gtInt item largest then item else largest)
      = fun largest item : Int => if item > largest then item else largest := by
  funext a x
  simp [gtInt]

/-- C4: on every non-empty `i32` slice, `largest_i32`, the generic
`largest` of 14_generics (after dereferencing its returned reference) and
the `largest` of 15_traits all return the same value, namely the maximum
element of the slice; and the two generic functions agree on every
element type and comparison. -/
theorem c4_largest_agreement :
    (∀ (T : Type) (gt : T → T → Bool) (l : List T),
      largest14 gt l = largest15 gt l)
    ∧ ∀ l : List Int, l ≠ [] →
        ∃ m, largest_i32 l = some m ∧ largest14 gtInt l = some m
          ∧ largest15 gtInt l = some m ∧ m ∈ l ∧ ∀ x ∈ l, x ≤ m := by
  refine ⟨fun T gt l => rfl, ?_⟩
  intro l hl
  obtain ⟨b, t, rfl⟩ : ∃ b t, l = b :: t := by
    cases l with
    | nil => exact absurd rfl hl
    | cons b t => exact ⟨b, t, rfl⟩
  obtain ⟨hmem, -, hall⟩ := foldl_largest_spec largestStep_spec (b :: t) b
  refine ⟨(b :: t).foldl
      (fun largest item => if item > largest then item else largest) b,
    rfl, ?_, ?_, ?_, hall⟩
  · show some ((b :: t).foldl
        (fun largest item => if gtInt item largest then item else largest) b) = _
    rw [gtInt_step_eq]
  · show some ((b :: t).foldl
        (fun largest item => if gtInt item largest then item else largest) b) = _
    rw [gtInt_step_eq]
  · rcases hmem with h | h
    · rw [h]; exact List.mem_cons_self b t
    · exact h

/-- C4 (witness): the agreement and maximum statement on the slice
`[3, 1, 2]`. -/
theorem c4_largest_agreement_witness :
    ∃ m, largest_i32 [3, 1, 2] = some m ∧ largest14 gtInt [3, 1, 2] = some m
      ∧ largest15 gtInt [3, 1, 2] = some m ∧ m ∈ [3, 1, 2]
      ∧ ∀ x ∈ [3, 1, 2], x ≤ m :=
  c4_largest_agreement.2 [3, 1, 2] (by decide)

/-- C9: each `largest` function reads element 0 of its slice first, so on
the empty slice each one reaches the index-out-of-bounds panic
(`none`), and on every non-empty slice every access is in bounds and a
value is returned (`some`). -/
theorem c9_largest_empty :
    largest_i32 [] = none ∧ largest_char [] = none
    ∧ (∀ (T : Type) (gt : T → T → Bool),
        largest14 gt ([] : List T) = none ∧ largest15 gt ([] : List T) = none)
    ∧ (∀ l : List Int, l ≠ [] → ∃ m, largest_i32 l = some m)
    ∧ (∀ l : List Char, l ≠ [] → ∃ m, largest_char l = some m)
    ∧ (∀ (T : Type) (gt : T → T → Bool) (l : List T), l ≠ [] →
        (∃ m, largest14 gt l = some m) ∧ ∃ m, largest15 gt l = some m) := by
  refine ⟨rfl, rfl, fun T gt => ⟨rfl, rfl⟩, ?_, ?_, ?_⟩
  · intro l hl
    cases l with
    | nil => exact absurd rfl hl
    | cons b t => exact ⟨_, rfl⟩
  · intro l hl
    cases l with
    | nil => exact absurd rfl hl
    | cons b t => exact ⟨_, rfl⟩
  · intro T gt l hl
    cases l with
    | nil => exact absurd rfl hl
    | cons b t => exact ⟨⟨_, rfl⟩, ⟨_, rfl⟩⟩

/-- C9 (witness): the non-empty cases at concrete one-element slices. -/
theorem c9_largest_empty_witness :
    (∃ m, largest_i32 [5] = some m) ∧ (∃ m, largest_char ['a'] = some m)
      ∧ (∃ m, largest14 gtInt [5] = some m)
      ∧ ∃ m, largest15 gtInt [5] = some m :=
  ⟨c9_largest_empty.2.2.2.1 [5] (by decide),
    c9_largest_empty.2.2.2.2.1 ['a'] (by decide),
    (c9_largest_empty.2.2.2.2.2 Int gtInt [5] (by decide)).1,
    (c9_largest_empty.2.2.2.2.2 Int gtInt [5] (by decide)).2⟩

end RustBookExamples
